import Mathlib

/-!
Shallow embedding of the reward vault program
(`src/contracts/reward_vault.rs`), a Solana/Anchor program that custodies
reward funds (native lamports or SPL tokens) and releases them to a
recorded distributor.

Modelling conventions:
- Public keys are natural-number identifiers.
- Machine integers are `Nat` with explicit `% 2^64` where the source
  performs an unchecked 64-bit addition, and explicit bound checks where
  the source uses `checked_add` (`u128` accumulator) or where an invoked
  external program enforces bounds.
- Each instruction is a function `State → Option ProgError × State`.
  The second component is the account state as mutated by the instruction
  body up to the point of return; when the first component is `some e`,
  the hosting platform discards that state (transaction rollback), but
  exposing it lets us state exactly where mutations happen relative to
  validation checks inside the instruction body.
- Failures of invoked external programs (the system program's lamport
  transfer, the token program's transfer) are modelled as the `cpi`
  error, distinct from the program's own error codes.
-/

/-- Public keys, modelled as natural-number identifiers. -/
abbrev Pubkey := Nat

/-- The constant 2^64: exclusive upper bound of a `u64` value. -/
def U64_MOD : Nat := 2 ^ 64

/-- The constant 2^128: exclusive upper bound of a `u128` value. -/
def U128_MOD : Nat := 2 ^ 128

/-- Error codes of the program, from the `RewardVaultError` enum. -/
inductive RewardVaultError where
  | RewardMintRequired
  | InvalidEpochWindow
  | InvalidAmount
  | EpochMismatch
  | ArithmeticOverflow
  | VaultTokenRequired
  | FunderTokenRequired
  | MintMismatch
  | BumpNotFound
  | UnauthorizedDistributor
  | MissingDistributorSignature
  | InsufficientVaultBalance
  | WrongPayoutMode
  deriving DecidableEq, Repr

/-- A failure observed by an instruction: either one of the program's own
error codes, or a failure reported by an invoked external program
(system transfer or token transfer). -/
inductive ProgError where
  | reward (e : RewardVaultError)
  | cpi
  deriving DecidableEq, Repr

/-- The `RewardVault` account: vault configuration record. -/
structure RewardVault where
  admin : Pubkey
  distributor : Pubkey
  reward_mint : Option Pubkey
  pay_sol : Bool
  bump : Nat
  deriving DecidableEq, Repr

/-- The `Epoch` account: a time-boxed funding bucket of one vault.
`total_funded` is the `u128` accumulator, guarded by `checked_add`. -/
structure Epoch where
  vault : Pubkey
  start_ts : Int
  end_ts : Int
  index : Nat
  total_funded : Nat
  bump : Nat
  deriving DecidableEq, Repr

/-- The `NewEpoch` event emitted by `start_epoch`. -/
structure NewEpoch where
  start_ts : Int
  end_ts : Int
  epoch_index : Nat
  deriving DecidableEq, Repr

/-- An SPL token account: its declared mint and its `u64` balance. -/
structure TokenAccount where
  mint : Pubkey
  amount : Nat
  deriving DecidableEq, Repr

/-- The `init_vault` instruction: requires `pay_sol || reward_mint.is_some()`
(`RewardMintRequired` otherwise), then records admin, distributor, mint,
payout mode and the bump into a fresh `RewardVault` account. -/
def init_vault (admin_key : Pubkey) (vault_bump : Nat)
    (distributor : Pubkey) (reward_mint : Option Pubkey) (pay_sol : Bool) :
    Except RewardVaultError RewardVault :=
  if pay_sol || reward_mint.isSome then
    Except.ok { admin := admin_key, distributor := distributor,
                reward_mint := reward_mint, pay_sol := pay_sol,
                bump := vault_bump }
  else
    Except.error RewardVaultError.RewardMintRequired

/-- The `start_epoch` instruction: requires `start_ts < end_ts`
(`InvalidEpochWindow` otherwise), then creates the `Epoch` account with
`total_funded = 0` and the vault back-reference, and emits a `NewEpoch`
event carrying `(start_ts, end_ts, index)`. -/
def start_epoch (vault_key : Pubkey) (epoch_bump : Nat)
    (start_ts end_ts : Int) (index : Nat) :
    Except RewardVaultError (Epoch × NewEpoch) :=
  if start_ts < end_ts then
    Except.ok ({ vault := vault_key, start_ts := start_ts, end_ts := end_ts,
                 index := index, total_funded := 0, bump := epoch_bump },
               { start_ts := start_ts, end_ts := end_ts, epoch_index := index })
  else
    Except.error RewardVaultError.InvalidEpochWindow

/-- The accounts touched by `fund_vault`: the vault record and its address,
the funder's lamports, the vault's custody lamports, the optional epoch
account, and the optional token accounts for the SPL path. -/
structure FundState where
  reward_vault : RewardVault
  vault_key : Pubkey
  funder_lamports : Nat
  vault_lamports : Nat
  epoch : Option Epoch
  funder_token_account : Option TokenAccount
  vault_token_account : Option TokenAccount
  deriving DecidableEq, Repr

/-- `fund_sol`: invokes the system program's lamport transfer from funder to
vault. The system program (an external collaborator) rejects the transfer
when the funder lacks the amount or the credit would leave the `u64`
range; on success it debits the funder and credits the vault. -/
def fund_sol (s : FundState) (amount : Nat) : Option ProgError × FundState :=
  if s.funder_lamports < amount then (some ProgError.cpi, s)
  else if U64_MOD ≤ s.vault_lamports + amount then (some ProgError.cpi, s)
  else (none, { s with funder_lamports := s.funder_lamports - amount,
                       vault_lamports := s.vault_lamports + amount })

/-- The token program's transfer between two token accounts, invoked by
`fund_spl` and `pay_out_spl`. The token program (an external collaborator)
rejects the transfer when the sender lacks the amount or the credit would
leave the `u64` range; on success it moves the amount atomically. -/
def spl_token_transfer (sender receiver : TokenAccount) (amount : Nat) :
    Option ProgError × TokenAccount × TokenAccount :=
  if sender.amount < amount then (some ProgError.cpi, sender, receiver)
  else if U64_MOD ≤ receiver.amount + amount then
    (some ProgError.cpi, sender, receiver)
  else (none, { sender with amount := sender.amount - amount },
        { receiver with amount := receiver.amount + amount })

/-- `fund_spl`: resolves the configured mint (`RewardMintRequired` when
absent), requires both token accounts (`VaultTokenRequired`,
`FunderTokenRequired`), checks both mints against the configured mint
(`MintMismatch`), then invokes the token transfer funder → vault. -/
def fund_spl (s : FundState) (amount : Nat) : Option ProgError × FundState :=
  match s.reward_vault.reward_mint with
  | none => (some (ProgError.reward RewardVaultError.RewardMintRequired), s)
  | some reward_mint =>
    match s.vault_token_account with
    | none => (some (ProgError.reward RewardVaultError.VaultTokenRequired), s)
    | some vault_token =>
      match s.funder_token_account with
      | none => (some (ProgError.reward RewardVaultError.FunderTokenRequired), s)
      | some funder_token =>
        if vault_token.mint ≠ reward_mint then
          (some (ProgError.reward RewardVaultError.MintMismatch), s)
        else if funder_token.mint ≠ reward_mint then
          (some (ProgError.reward RewardVaultError.MintMismatch), s)
        else
          match spl_token_transfer funder_token vault_token amount with
          | (some e, _, _) => (some e, s)
          | (none, funder_token2, vault_token2) =>
            (none, { s with funder_token_account := some funder_token2,
                            vault_token_account := some vault_token2 })

/-- The `fund_vault` instruction: requires `amount > 0` (`InvalidAmount`),
routes the funds transfer by the vault's payout mode, and only AFTER the
transfer checks the supplied epoch's back-reference (`EpochMismatch`) and
adds `amount` to the `u128` accumulator via `checked_add`
(`ArithmeticOverflow`). The transfer-before-epoch-check order follows the
source body; a failure after the transfer leaves the transfer visible in
the returned state, undone only by the platform's transaction rollback. -/
def fund_vault (s : FundState) (amount : Nat) : Option ProgError × FundState :=
  if amount = 0 then (some (ProgError.reward RewardVaultError.InvalidAmount), s)
  else
    match (if s.reward_vault.pay_sol then fund_sol s amount else fund_spl s amount) with
    | (some e, s1) => (some e, s1)
    | (none, s1) =>
      match s1.epoch with
      | none => (none, s1)
      | some ep =>
        if ep.vault ≠ s1.vault_key then
          (some (ProgError.reward RewardVaultError.EpochMismatch), s1)
        else if U128_MOD ≤ ep.total_funded + amount then
          (some (ProgError.reward RewardVaultError.ArithmeticOverflow), s1)
        else
          (none, { s1 with
                   epoch := some { ep with total_funded := ep.total_funded + amount } })

/-- The accounts touched by `disburse_sol`: the vault record, the presented
distributor account (its key and whether it signed), the vault's custody
lamports and the recipient's lamports. -/
structure DisburseSolState where
  reward_vault : RewardVault
  distributor_key : Pubkey
  distributor_signed : Bool
  vault_lamports : Nat
  recipient_lamports : Nat
  deriving DecidableEq, Repr

/-- `pay_out_sol`: checks the vault's custody balance covers the amount
(`InsufficientVaultBalance`), then debits the vault and credits the
recipient by direct lamport mutation. The recipient credit is the
source's unchecked `u64` addition, modelled as addition modulo 2^64. -/
def pay_out_sol (s : DisburseSolState) (amount : Nat) :
    Option ProgError × DisburseSolState :=
  if s.vault_lamports < amount then
    (some (ProgError.reward RewardVaultError.InsufficientVaultBalance), s)
  else
    (none, { s with vault_lamports := s.vault_lamports - amount,
                    recipient_lamports := (s.recipient_lamports + amount) % U64_MOD })

/-- The `disburse_sol` instruction: requires `amount > 0` (`InvalidAmount`),
then the SOL payout mode (`WrongPayoutMode`), then that the presented
distributor key equals the recorded one (`UnauthorizedDistributor`), then
that the distributor signed (`MissingDistributorSignature`); finally
delegates to `pay_out_sol`. -/
def disburse_sol (s : DisburseSolState) (amount : Nat) :
    Option ProgError × DisburseSolState :=
  if amount = 0 then (some (ProgError.reward RewardVaultError.InvalidAmount), s)
  else if ¬ s.reward_vault.pay_sol then
    (some (ProgError.reward RewardVaultError.WrongPayoutMode), s)
  else if s.distributor_key ≠ s.reward_vault.distributor then
    (some (ProgError.reward RewardVaultError.UnauthorizedDistributor), s)
  else if ¬ s.distributor_signed then
    (some (ProgError.reward RewardVaultError.MissingDistributorSignature), s)
  else pay_out_sol s amount

/-- The accounts touched by `disburse_spl`: the vault record, the presented
distributor account, and the vault-owned and recipient token accounts. -/
structure DisburseSplState where
  reward_vault : RewardVault
  distributor_key : Pubkey
  distributor_signed : Bool
  vault_token_account : TokenAccount
  recipient_token_account : TokenAccount
  deriving DecidableEq, Repr

/-- `pay_out_spl`: resolves the configured mint (`RewardMintRequired` when
absent), checks both token accounts' mints (`MintMismatch`), then invokes
the token transfer vault → recipient signed by the vault's derived
identity. -/
def pay_out_spl (s : DisburseSplState) (amount : Nat) :
    Option ProgError × DisburseSplState :=
  match s.reward_vault.reward_mint with
  | none => (some (ProgError.reward RewardVaultError.RewardMintRequired), s)
  | some reward_mint =>
    if s.vault_token_account.mint ≠ reward_mint then
      (some (ProgError.reward RewardVaultError.MintMismatch), s)
    else if s.recipient_token_account.mint ≠ reward_mint then
      (some (ProgError.reward RewardVaultError.MintMismatch), s)
    else
      match spl_token_transfer s.vault_token_account s.recipient_token_account amount with
      | (some e, _, _) => (some e, s)
      | (none, vault_token2, recipient_token2) =>
        (none, { s with vault_token_account := vault_token2,
                        recipient_token_account := recipient_token2 })

/-- The `disburse_spl` instruction: requires `amount > 0` (`InvalidAmount`),
then the SPL payout mode (`WrongPayoutMode`), then the distributor key
match (`UnauthorizedDistributor`), then the distributor's signature
(`MissingDistributorSignature`); finally delegates to `pay_out_spl`. -/
def disburse_spl (s : DisburseSplState) (amount : Nat) :
    Option ProgError × DisburseSplState :=
  if amount = 0 then (some (ProgError.reward RewardVaultError.InvalidAmount), s)
  else if s.reward_vault.pay_sol then
    (some (ProgError.reward RewardVaultError.WrongPayoutMode), s)
  else if s.distributor_key ≠ s.reward_vault.distributor then
    (some (ProgError.reward RewardVaultError.UnauthorizedDistributor), s)
  else if ¬ s.distributor_signed then
    (some (ProgError.reward RewardVaultError.MissingDistributorSignature), s)
  else pay_out_spl s amount

/-! ### Helper lemmas -/

/-- The system transfer in `fund_sol` never touches the epoch account. -/
theorem fund_sol_epoch_eq (s : FundState) (amount : Nat) :
    (fund_sol s amount).2.epoch = s.epoch := by
  unfold fund_sol
  repeat' split
  all_goals rfl

/-- The token transfer path in `fund_spl` never touches the epoch account. -/
theorem fund_spl_epoch_eq (s : FundState) (amount : Nat) :
    (fund_spl s amount).2.epoch = s.epoch := by
  unfold fund_spl
  repeat' split
  all_goals rfl

/-- Neither funding path changes the vault's address. -/
theorem routed_vault_key_eq (s : FundState) (amount : Nat) :
    (if s.reward_vault.pay_sol then fund_sol s amount else fund_spl s amount).2.vault_key
      = s.vault_key := by
  split
  · unfold fund_sol
    repeat' split
    all_goals rfl
  · unfold fund_spl
    repeat' split
    all_goals rfl

/-- Neither funding path changes the epoch account. -/
theorem routed_epoch_eq (s : FundState) (amount : Nat) :
    (if s.reward_vault.pay_sol then fund_sol s amount else fund_spl s amount).2.epoch
      = s.epoch := by
  split
  · exact fund_sol_epoch_eq s amount
  · exact fund_spl_epoch_eq s amount

/-- Unfolding of `fund_vault` for a positive amount, in terms of the result
of the routed funding transfer. -/
theorem fund_vault_of_routed (s : FundState) (amount : Nat)
    (e : Option ProgError) (s1 : FundState) (hpos : amount ≠ 0)
    (hr : (if s.reward_vault.pay_sol then fund_sol s amount else fund_spl s amount)
            = (e, s1)) :
    fund_vault s amount =
      match e with
      | some err => (some err, s1)
      | none =>
        match s1.epoch with
        | none => (none, s1)
        | some ep =>
          if ep.vault ≠ s1.vault_key then
            (some (ProgError.reward RewardVaultError.EpochMismatch), s1)
          else if U128_MOD ≤ ep.total_funded + amount then
            (some (ProgError.reward RewardVaultError.ArithmeticOverflow), s1)
          else
            (none, { s1 with
                     epoch := some { ep with total_funded := ep.total_funded + amount } }) := by
  unfold fund_vault
  rw [if_neg hpos]
  simp only [hr]
  cases e <;> rfl

/-- Successful system transfer: when the funder covers the amount and the
vault credit stays in the u64 range, `fund_sol` debits the funder and
credits the vault. -/
theorem fund_sol_success (s : FundState) (amount : Nat)
    (hfund : amount ≤ s.funder_lamports)
    (hcap : s.vault_lamports + amount < U64_MOD) :
    fund_sol s amount =
      (none, { s with funder_lamports := s.funder_lamports - amount,
                      vault_lamports := s.vault_lamports + amount }) := by
  unfold fund_sol
  rw [if_neg (Nat.not_lt.mpr hfund), if_neg (Nat.not_le.mpr hcap)]

/-! ### Claim theorems -/

/-- C6: `init_vault` fails with `RewardMintRequired` exactly when `pay_sol`
is false and no mint is supplied; otherwise it succeeds and records the
caller as admin together with the given distributor, mint, payout-mode
flag and bump. -/
theorem claim_C6_init_vault (admin_key : Pubkey) (vault_bump : Nat)
    (distributor : Pubkey) (reward_mint : Option Pubkey) (pay_sol : Bool) :
    (init_vault admin_key vault_bump distributor reward_mint pay_sol =
        Except.error RewardVaultError.RewardMintRequired ↔
      pay_sol = false ∧ reward_mint = none) ∧
    (pay_sol = true ∨ reward_mint ≠ none →
      init_vault admin_key vault_bump distributor reward_mint pay_sol =
        Except.ok { admin := admin_key, distributor := distributor,
                    reward_mint := reward_mint, pay_sol := pay_sol,
                    bump := vault_bump }) := by
  unfold init_vault
  constructor
  · cases pay_sol <;> cases reward_mint <;> simp
  · intro h
    cases pay_sol <;> cases reward_mint <;> simp_all

/-- Witness for C6 at concrete inputs: an SPL vault with a mint succeeds,
recording the given fields. -/
theorem claim_C6_init_vault_witness :
    init_vault 1 255 2 (some 5) false =
      Except.ok { admin := 1, distributor := 2, reward_mint := some 5,
                  pay_sol := false, bump := 255 } :=
  (claim_C6_init_vault 1 255 2 (some 5) false).2 (Or.inr (by decide))

/-- C7: `start_epoch` succeeds exactly when `start_ts < end_ts`, creating
the epoch with `total_funded = 0` and the vault back-reference and
emitting the `NewEpoch` event carrying `(start_ts, end_ts, index)`, and
fails with `InvalidEpochWindow` when `start_ts ≥ end_ts`. -/
theorem claim_C7_start_epoch (vault_key : Pubkey) (epoch_bump : Nat)
    (start_ts end_ts : Int) (index : Nat) :
    (start_ts < end_ts →
      start_epoch vault_key epoch_bump start_ts end_ts index =
        Except.ok ({ vault := vault_key, start_ts := start_ts, end_ts := end_ts,
                     index := index, total_funded := 0, bump := epoch_bump },
                   { start_ts := start_ts, end_ts := end_ts, epoch_index := index })) ∧
    (end_ts ≤ start_ts →
      start_epoch vault_key epoch_bump start_ts end_ts index =
        Except.error RewardVaultError.InvalidEpochWindow) := by
  constructor <;> intro h
  · simp [start_epoch, h]
  · simp [start_epoch, not_lt.mpr h]

/-- Witness for C7 at concrete inputs: a window `[3, 9)` succeeds with a
zero accumulator and the event, and a window `[9, 3)` fails. -/
theorem claim_C7_start_epoch_witness :
    start_epoch 7 254 3 9 1 =
      Except.ok ({ vault := 7, start_ts := 3, end_ts := 9, index := 1,
                   total_funded := 0, bump := 254 },
                 { start_ts := 3, end_ts := 9, epoch_index := 1 }) ∧
    start_epoch 7 254 9 3 1 = Except.error RewardVaultError.InvalidEpochWindow :=
  ⟨(claim_C7_start_epoch 7 254 3 9 1).1 (by decide),
   (claim_C7_start_epoch 7 254 9 3 1).2 (by decide)⟩

/-- C1: for a positive amount and the matching payout mode, both disburse
instructions fail with `UnauthorizedDistributor` when the presented
distributor key differs from the vault's recorded distributor, and with
`MissingDistributorSignature` when the key matches but the signature is
absent; in every such failure the returned state is unchanged, so no
funds move. -/
theorem claim_C1_distributor_gate (s : DisburseSolState) (t : DisburseSplState)
    (amount : Nat) (hpos : 0 < amount)
    (hsol : s.reward_vault.pay_sol = true)
    (hspl : t.reward_vault.pay_sol = false) :
    (s.distributor_key ≠ s.reward_vault.distributor →
      disburse_sol s amount =
        (some (ProgError.reward RewardVaultError.UnauthorizedDistributor), s)) ∧
    (s.distributor_key = s.reward_vault.distributor → s.distributor_signed = false →
      disburse_sol s amount =
        (some (ProgError.reward RewardVaultError.MissingDistributorSignature), s)) ∧
    (t.distributor_key ≠ t.reward_vault.distributor →
      disburse_spl t amount =
        (some (ProgError.reward RewardVaultError.UnauthorizedDistributor), t)) ∧
    (t.distributor_key = t.reward_vault.distributor → t.distributor_signed = false →
      disburse_spl t amount =
        (some (ProgError.reward RewardVaultError.MissingDistributorSignature), t)) := by
  refine ⟨?_, ?_, ?_, ?_⟩
  · intro h
    simp [disburse_sol, hsol, hpos.ne', h]
  · intro hk hs
    simp [disburse_sol, hsol, hpos.ne', hk, hs]
  · intro h
    simp [disburse_spl, hspl, hpos.ne', h]
  · intro hk hs
    simp [disburse_spl, hspl, hpos.ne', hk, hs]

/-- Witness for C1 at concrete inputs: a wrong key fails the SOL path with
`UnauthorizedDistributor`, and a matching unsigned key fails the SPL path
with `MissingDistributorSignature`, both leaving the state unchanged. -/
theorem claim_C1_distributor_gate_witness :
    disburse_sol
        { reward_vault := { admin := 0, distributor := 1, reward_mint := none,
                            pay_sol := true, bump := 0 },
          distributor_key := 2, distributor_signed := true,
          vault_lamports := 50, recipient_lamports := 0 } 5 =
      (some (ProgError.reward RewardVaultError.UnauthorizedDistributor),
       { reward_vault := { admin := 0, distributor := 1, reward_mint := none,
                           pay_sol := true, bump := 0 },
         distributor_key := 2, distributor_signed := true,
         vault_lamports := 50, recipient_lamports := 0 }) ∧
    disburse_spl
        { reward_vault := { admin := 0, distributor := 1, reward_mint := some 9,
                            pay_sol := false, bump := 0 },
          distributor_key := 1, distributor_signed := false,
          vault_token_account := { mint := 9, amount := 50 },
          recipient_token_account := { mint := 9, amount := 0 } } 5 =
      (some (ProgError.reward RewardVaultError.MissingDistributorSignature),
       { reward_vault := { admin := 0, distributor := 1, reward_mint := some 9,
                           pay_sol := false, bump := 0 },
         distributor_key := 1, distributor_signed := false,
         vault_token_account := { mint := 9, amount := 50 },
         recipient_token_account := { mint := 9, amount := 0 } }) :=
  ⟨(claim_C1_distributor_gate
      { reward_vault := { admin := 0, distributor := 1, reward_mint := none,
                          pay_sol := true, bump := 0 },
        distributor_key := 2, distributor_signed := true,
        vault_lamports := 50, recipient_lamports := 0 }
      { reward_vault := { admin := 0, distributor := 1, reward_mint := some 9,
                          pay_sol := false, bump := 0 },
        distributor_key := 1, distributor_signed := false,
        vault_token_account := { mint := 9, amount := 50 },
        recipient_token_account := { mint := 9, amount := 0 } } 5
      (by decide) rfl rfl).1 (by decide),
   (claim_C1_distributor_gate
      { reward_vault := { admin := 0, distributor := 1, reward_mint := none,
                          pay_sol := true, bump := 0 },
        distributor_key := 2, distributor_signed := true,
        vault_lamports := 50, recipient_lamports := 0 }
      { reward_vault := { admin := 0, distributor := 1, reward_mint := some 9,
                          pay_sol := false, bump := 0 },
        distributor_key := 1, distributor_signed := false,
        vault_token_account := { mint := 9, amount := 50 },
        recipient_token_account := { mint := 9, amount := 0 } } 5
      (by decide) rfl rfl).2.2.2 rfl rfl⟩

/-- C2: for a positive amount on an authorized, signed SOL disbursement,
requesting more than the custody balance fails with
`InsufficientVaultBalance` and leaves the state (both balances)
unchanged; requesting at most the balance applies the vault debit and the
recipient credit together. -/
theorem claim_C2_insufficient_balance (s : DisburseSolState) (amount : Nat)
    (hpos : 0 < amount)
    (hsol : s.reward_vault.pay_sol = true)
    (hkey : s.distributor_key = s.reward_vault.distributor)
    (hsig : s.distributor_signed = true) :
    (s.vault_lamports < amount →
      disburse_sol s amount =
        (some (ProgError.reward RewardVaultError.InsufficientVaultBalance), s)) ∧
    (amount ≤ s.vault_lamports →
      disburse_sol s amount =
        (none, { s with vault_lamports := s.vault_lamports - amount,
                        recipient_lamports :=
                          (s.recipient_lamports + amount) % U64_MOD })) := by
  constructor <;> intro h
  · simp [disburse_sol, pay_out_sol, hsol, hkey, hsig, hpos.ne', h]
  · simp [disburse_sol, pay_out_sol, hsol, hkey, hsig, hpos.ne', Nat.not_lt.mpr h]

/-- Witness for C2 at concrete inputs: disbursing 60 from a custody balance
of 50 fails with `InsufficientVaultBalance` and changes nothing. -/
theorem claim_C2_insufficient_balance_witness :
    disburse_sol
        { reward_vault := { admin := 0, distributor := 1, reward_mint := none,
                            pay_sol := true, bump := 0 },
          distributor_key := 1, distributor_signed := true,
          vault_lamports := 50, recipient_lamports := 7 } 60 =
      (some (ProgError.reward RewardVaultError.InsufficientVaultBalance),
       { reward_vault := { admin := 0, distributor := 1, reward_mint := none,
                           pay_sol := true, bump := 0 },
         distributor_key := 1, distributor_signed := true,
         vault_lamports := 50, recipient_lamports := 7 }) :=
  (claim_C2_insufficient_balance _ 60 (by decide) rfl rfl rfl).1 (by decide)

/-- A concrete `fund_vault` call for claim C3: a SOL vault at address 7 with
a funder holding 10 lamports, supplied with an epoch whose back-reference
is 99 ≠ 7. -/
def c3State : FundState :=
  { reward_vault := { admin := 0, distributor := 1, reward_mint := none,
                      pay_sol := true, bump := 0 },
    vault_key := 7, funder_lamports := 10, vault_lamports := 20,
    epoch := some { vault := 99, start_ts := 0, end_ts := 10, index := 0,
                    total_funded := 0, bump := 0 },
    funder_token_account := none, vault_token_account := none }

/-- C3 counterexample: `fund_vault` with a mismatched epoch does fail with
`EpochMismatch`, but the instruction body has already transferred the
funds into custody before reaching that check: in the state at the point
of failure the vault's custody balance has grown by the amount and the
funder has been debited. So the failure does not happen before the funds
transfer, refuting the claimed check-before-mutation ordering. -/
theorem claim_C3_counterexample :
    (fund_vault c3State 5).1 = some (ProgError.reward RewardVaultError.EpochMismatch) ∧
    (fund_vault c3State 5).2.vault_lamports = c3State.vault_lamports + 5 ∧
    (fund_vault c3State 5).2.funder_lamports + 5 = c3State.funder_lamports := by
  decide

/-- C3 amended: `init_vault`, `start_epoch`, `disburse_sol` and
`disburse_spl` validate before mutating, but in `fund_vault` the epoch
back-reference check runs only after the funds transfer: with a positive
amount, a succeeding SOL transfer and a mismatched supplied epoch, the
instruction fails with `EpochMismatch` with the custody transfer already
applied in the body's state (undone only by the platform's
transaction-level rollback) and the epoch accumulator untouched. -/
theorem claim_C3_amended (s : FundState) (amount : Nat) (ep : Epoch)
    (hpos : 0 < amount)
    (hsol : s.reward_vault.pay_sol = true)
    (hfund : amount ≤ s.funder_lamports)
    (hcap : s.vault_lamports + amount < U64_MOD)
    (hep : s.epoch = some ep)
    (hmis : ep.vault ≠ s.vault_key) :
    fund_vault s amount =
      (some (ProgError.reward RewardVaultError.EpochMismatch),
       { s with funder_lamports := s.funder_lamports - amount,
                vault_lamports := s.vault_lamports + amount }) := by
  have hr : (if s.reward_vault.pay_sol then fund_sol s amount else fund_spl s amount)
      = (none, { s with funder_lamports := s.funder_lamports - amount,
                        vault_lamports := s.vault_lamports + amount }) := by
    rw [if_pos hsol, fund_sol_success s amount hfund hcap]
  rw [fund_vault_of_routed s amount none _ hpos.ne' hr]
  simp [hep, hmis]

/-- Witness for C3's amended theorem at the concrete `c3State` call. -/
theorem claim_C3_amended_witness :
    fund_vault c3State 5 =
      (some (ProgError.reward RewardVaultError.EpochMismatch),
       { c3State with funder_lamports := 5, vault_lamports := 25 }) :=
  claim_C3_amended c3State 5
    { vault := 99, start_ts := 0, end_ts := 10, index := 0,
      total_funded := 0, bump := 0 }
    (by decide) rfl (by decide) (by decide) rfl (by decide)

/-- C4: `fund_vault` with amount 0 fails with `InvalidAmount` leaving the
state unchanged; with a positive amount, a supplied epoch belonging to
this vault, a succeeding funds transfer and no accumulator overflow, it
succeeds and the epoch's `total_funded` grows by exactly the amount. -/
theorem claim_C4_fund_accumulator (s : FundState) (amount : Nat) (ep : Epoch)
    (hep : s.epoch = some ep) (hvk : ep.vault = s.vault_key) :
    fund_vault s 0 = (some (ProgError.reward RewardVaultError.InvalidAmount), s) ∧
    (0 < amount → ep.total_funded + amount < U128_MOD →
      (if s.reward_vault.pay_sol then fund_sol s amount else fund_spl s amount).1 = none →
      (fund_vault s amount).1 = none ∧
      (fund_vault s amount).2.epoch =
        some { ep with total_funded := ep.total_funded + amount }) := by
  constructor
  · unfold fund_vault
    rw [if_pos rfl]
  · intro hpos hover htrans
    rcases hr : (if s.reward_vault.pay_sol then fund_sol s amount else fund_spl s amount)
      with ⟨e, s1⟩
    have he : e = none := by rw [hr] at htrans; exact htrans
    subst he
    have hs1ep : s1.epoch = some ep := by
      have := routed_epoch_eq s amount
      rw [hr] at this
      rw [this, hep]
    have hs1vk : s1.vault_key = s.vault_key := by
      have := routed_vault_key_eq s amount
      rw [hr] at this
      exact this
    rw [fund_vault_of_routed s amount none s1 hpos.ne' hr]
    simp [hs1ep, hs1vk, hvk, Nat.not_le.mpr hover]

/-- Witness for C4 at a concrete call: funding 5 into a matching epoch with
accumulator 11 yields accumulator 16, and funding 0 fails. -/
theorem claim_C4_fund_accumulator_witness :
    fund_vault
        { reward_vault := { admin := 0, distributor := 1, reward_mint := none,
                            pay_sol := true, bump := 0 },
          vault_key := 7, funder_lamports := 10, vault_lamports := 20,
          epoch := some { vault := 7, start_ts := 0, end_ts := 10, index := 0,
                          total_funded := 11, bump := 0 },
          funder_token_account := none, vault_token_account := none } 0 =
      (some (ProgError.reward RewardVaultError.InvalidAmount),
       { reward_vault := { admin := 0, distributor := 1, reward_mint := none,
                           pay_sol := true, bump := 0 },
         vault_key := 7, funder_lamports := 10, vault_lamports := 20,
         epoch := some { vault := 7, start_ts := 0, end_ts := 10, index := 0,
                         total_funded := 11, bump := 0 },
         funder_token_account := none, vault_token_account := none }) ∧
    (fund_vault
        { reward_vault := { admin := 0, distributor := 1, reward_mint := none,
                            pay_sol := true, bump := 0 },
          vault_key := 7, funder_lamports := 10, vault_lamports := 20,
          epoch := some { vault := 7, start_ts := 0, end_ts := 10, index := 0,
                          total_funded := 11, bump := 0 },
          funder_token_account := none, vault_token_account := none } 5).2.epoch =
      some { vault := 7, start_ts := 0, end_ts := 10, index := 0,
             total_funded := 16, bump := 0 } :=
  ⟨(claim_C4_fund_accumulator _ 5
      { vault := 7, start_ts := 0, end_ts := 10, index := 0,
        total_funded := 11, bump := 0 } rfl rfl).1,
   ((claim_C4_fund_accumulator _ 5
      { vault := 7, start_ts := 0, end_ts := 10, index := 0,
        total_funded := 11, bump := 0 } rfl rfl).2
      (by decide) (by decide) (by decide)).2⟩

/-- C5: when the epoch accumulator plus a positive amount would leave the
u128 range, `fund_vault` (with a matching epoch and a succeeding funds
transfer) fails with `ArithmeticOverflow` and the epoch account — in
particular its accumulator — is unchanged rather than wrapped. -/
theorem claim_C5_accumulator_overflow (s : FundState) (amount : Nat) (ep : Epoch)
    (hpos : 0 < amount)
    (hep : s.epoch = some ep) (hvk : ep.vault = s.vault_key)
    (hover : U128_MOD ≤ ep.total_funded + amount)
    (htrans : (if s.reward_vault.pay_sol then fund_sol s amount
               else fund_spl s amount).1 = none) :
    (fund_vault s amount).1 = some (ProgError.reward RewardVaultError.ArithmeticOverflow) ∧
    (fund_vault s amount).2.epoch = some ep := by
  rcases hr : (if s.reward_vault.pay_sol then fund_sol s amount else fund_spl s amount)
    with ⟨e, s1⟩
  have he : e = none := by rw [hr] at htrans; exact htrans
  subst he
  have hs1ep : s1.epoch = some ep := by
    have := routed_epoch_eq s amount
    rw [hr] at this
    rw [this, hep]
  have hs1vk : s1.vault_key = s.vault_key := by
    have := routed_vault_key_eq s amount
    rw [hr] at this
    exact this
  rw [fund_vault_of_routed s amount none s1 hpos.ne' hr]
  simp [hs1ep, hs1vk, hvk, hover]

/-- Witness for C5 at a concrete call: an accumulator at `2^128 - 1` plus
amount 1 fails with `ArithmeticOverflow`, accumulator unchanged. -/
theorem claim_C5_accumulator_overflow_witness :
    (fund_vault
        { reward_vault := { admin := 0, distributor := 1, reward_mint := none,
                            pay_sol := true, bump := 0 },
          vault_key := 7, funder_lamports := 10, vault_lamports := 20,
          epoch := some { vault := 7, start_ts := 0, end_ts := 10, index := 0,
                          total_funded := 2 ^ 128 - 1, bump := 0 },
          funder_token_account := none, vault_token_account := none } 1).1 =
      some (ProgError.reward RewardVaultError.ArithmeticOverflow) ∧
    (fund_vault
        { reward_vault := { admin := 0, distributor := 1, reward_mint := none,
                            pay_sol := true, bump := 0 },
          vault_key := 7, funder_lamports := 10, vault_lamports := 20,
          epoch := some { vault := 7, start_ts := 0, end_ts := 10, index := 0,
                          total_funded := 2 ^ 128 - 1, bump := 0 },
          funder_token_account := none, vault_token_account := none } 1).2.epoch =
      some { vault := 7, start_ts := 0, end_ts := 10, index := 0,
             total_funded := 2 ^ 128 - 1, bump := 0 } :=
  claim_C5_accumulator_overflow _ 1
    { vault := 7, start_ts := 0, end_ts := 10, index := 0,
      total_funded := 2 ^ 128 - 1, bump := 0 }
    (by decide) rfl rfl (by norm_num [U128_MOD]) (by decide)

/-- A concrete `disburse_spl` call against a `pay_sol = true` vault, for
claim C8. -/
def c8SplState : DisburseSplState :=
  { reward_vault := { admin := 0, distributor := 1, reward_mint := none,
                      pay_sol := true, bump := 0 },
    distributor_key := 1, distributor_signed := true,
    vault_token_account := { mint := 9, amount := 50 },
    recipient_token_account := { mint := 9, amount := 0 } }

/-- C8 counterexample: the claim says a `pay_sol = true` vault rejects
`disburse_spl` with `WrongPayoutMode` for ANY amount, but at amount 0 the
amount check fires first and the failure is `InvalidAmount`, a different
error. -/
theorem claim_C8_counterexample :
    (disburse_spl c8SplState 0).1 = some (ProgError.reward RewardVaultError.InvalidAmount) ∧
    some (ProgError.reward RewardVaultError.InvalidAmount) ≠
      some (ProgError.reward RewardVaultError.WrongPayoutMode) := by
  decide

/-- C8 amended: for every positive amount, a `pay_sol = true` vault rejects
`disburse_spl` with `WrongPayoutMode` and a `pay_sol = false` vault
rejects `disburse_sol` with `WrongPayoutMode`, each leaving the state
unchanged; at amount 0 both instructions fail earlier with
`InvalidAmount`. -/
theorem claim_C8_wrong_mode (s : DisburseSolState) (t : DisburseSplState)
    (amount : Nat) (hpos : 0 < amount)
    (hs : s.reward_vault.pay_sol = false)
    (ht : t.reward_vault.pay_sol = true) :
    disburse_sol s amount =
      (some (ProgError.reward RewardVaultError.WrongPayoutMode), s) ∧
    disburse_spl t amount =
      (some (ProgError.reward RewardVaultError.WrongPayoutMode), t) ∧
    disburse_sol s 0 = (some (ProgError.reward RewardVaultError.InvalidAmount), s) ∧
    disburse_spl t 0 = (some (ProgError.reward RewardVaultError.InvalidAmount), t) := by
  refine ⟨?_, ?_, ?_, ?_⟩
  · simp [disburse_sol, hs, hpos.ne']
  · simp [disburse_spl, ht, hpos.ne']
  · simp [disburse_sol]
  · simp [disburse_spl]

/-- Witness for C8's amended theorem at concrete calls with amount 5. -/
theorem claim_C8_wrong_mode_witness :
    disburse_sol
        { reward_vault := { admin := 0, distributor := 1, reward_mint := some 9,
                            pay_sol := false, bump := 0 },
          distributor_key := 1, distributor_signed := true,
          vault_lamports := 50, recipient_lamports := 0 } 5 =
      (some (ProgError.reward RewardVaultError.WrongPayoutMode),
       { reward_vault := { admin := 0, distributor := 1, reward_mint := some 9,
                           pay_sol := false, bump := 0 },
         distributor_key := 1, distributor_signed := true,
         vault_lamports := 50, recipient_lamports := 0 }) ∧
    disburse_spl c8SplState 5 =
      (some (ProgError.reward RewardVaultError.WrongPayoutMode), c8SplState) :=
  ⟨(claim_C8_wrong_mode
      { reward_vault := { admin := 0, distributor := 1, reward_mint := some 9,
                          pay_sol := false, bump := 0 },
        distributor_key := 1, distributor_signed := true,
        vault_lamports := 50, recipient_lamports := 0 }
      c8SplState 5 (by decide) rfl rfl).1,
   (claim_C8_wrong_mode
      { reward_vault := { admin := 0, distributor := 1, reward_mint := some 9,
                          pay_sol := false, bump := 0 },
        distributor_key := 1, distributor_signed := true,
        vault_lamports := 50, recipient_lamports := 0 }
      c8SplState 5 (by decide) rfl rfl).2.1⟩

/-- The funding call of the C9 round-trip counterexample: a SOL vault at
address 7 with empty custody and a funder holding exactly 100 lamports. -/
def c9Fund : FundState :=
  { reward_vault := { admin := 0, distributor := 1, reward_mint := none,
                      pay_sol := true, bump := 0 },
    vault_key := 7, funder_lamports := 100, vault_lamports := 0,
    epoch := none, funder_token_account := none, vault_token_account := none }

/-- The disbursement call of the C9 round-trip counterexample: the custody
balance is the 100 lamports just funded and the recipient sits at
`2^64 - 1`. -/
def c9Disburse : DisburseSolState :=
  { reward_vault := { admin := 0, distributor := 1, reward_mint := none,
                      pay_sol := true, bump := 0 },
    distributor_key := 1, distributor_signed := true,
    vault_lamports := 100, recipient_lamports := 2 ^ 64 - 1 }

/-- C9 counterexample: `fund_vault(100)` followed by `disburse_sol(100)` by
the recorded distributor succeeds and does return the custody balance to
its pre-funding value, but with the recipient at `2^64 - 1` lamports the
unchecked credit wraps, so the recipient's balance is NOT increased by
exactly 100 — refuting the claim over every native-vault state. -/
theorem claim_C9_counterexample :
    (fund_vault c9Fund 100).1 = none ∧
    (fund_vault c9Fund 100).2.vault_lamports = c9Fund.vault_lamports + 100 ∧
    c9Disburse.vault_lamports = (fund_vault c9Fund 100).2.vault_lamports ∧
    (disburse_sol c9Disburse 100).1 = none ∧
    (disburse_sol c9Disburse 100).2.vault_lamports = c9Fund.vault_lamports ∧
    (disburse_sol c9Disburse 100).2.recipient_lamports ≠
      c9Disburse.recipient_lamports + 100 := by
  decide

/-- C9 amended: for every native-asset vault state whose recipient balance
plus 100 stays within the u64 range (and in which the funding transfer
can succeed and any supplied epoch matches without overflow),
`fund_vault(100)` followed by `disburse_sol(100)` by the recorded
distributor leaves the custody balance at its pre-funding value and
increases the recipient's balance by exactly 100. -/
theorem claim_C9_round_trip (s : FundState) (recipient : Nat)
    (hsol : s.reward_vault.pay_sol = true)
    (hfund : 100 ≤ s.funder_lamports)
    (hcap : s.vault_lamports + 100 < U64_MOD)
    (hrec : recipient + 100 < U64_MOD)
    (hep : s.epoch = none ∨ ∃ ep, s.epoch = some ep ∧ ep.vault = s.vault_key ∧
             ep.total_funded + 100 < U128_MOD) :
    ∃ s1, fund_vault s 100 = (none, s1) ∧
      s1.vault_lamports = s.vault_lamports + 100 ∧
      disburse_sol
          { reward_vault := s.reward_vault,
            distributor_key := s.reward_vault.distributor,
            distributor_signed := true,
            vault_lamports := s1.vault_lamports,
            recipient_lamports := recipient } 100 =
        (none,
         { reward_vault := s.reward_vault,
           distributor_key := s.reward_vault.distributor,
           distributor_signed := true,
           vault_lamports := s.vault_lamports,
           recipient_lamports := recipient + 100 }) := by
  have hr : (if s.reward_vault.pay_sol then fund_sol s 100 else fund_spl s 100)
      = (none, { s with funder_lamports := s.funder_lamports - 100,
                        vault_lamports := s.vault_lamports + 100 }) := by
    rw [if_pos hsol, fund_sol_success s 100 hfund hcap]
  have hdis : ∀ v : Nat, v = s.vault_lamports + 100 →
      disburse_sol
          { reward_vault := s.reward_vault,
            distributor_key := s.reward_vault.distributor,
            distributor_signed := true,
            vault_lamports := v, recipient_lamports := recipient } 100 =
        (none,
         { reward_vault := s.reward_vault,
           distributor_key := s.reward_vault.distributor,
           distributor_signed := true,
           vault_lamports := s.vault_lamports,
           recipient_lamports := recipient + 100 }) := by
    intro v hv
    subst hv
    simp [disburse_sol, pay_out_sol, hsol, Nat.mod_eq_of_lt hrec]
  rcases hep with hnone | ⟨ep, hsome, hvk, hover⟩
  · have hfv : fund_vault s 100 =
        (none, { s with funder_lamports := s.funder_lamports - 100,
                        vault_lamports := s.vault_lamports + 100 }) := by
      rw [fund_vault_of_routed s 100 none _ (by decide) hr]
      simp [hnone]
    exact ⟨_, hfv, rfl, hdis _ rfl⟩
  · have hfv : fund_vault s 100 =
        (none, { s with funder_lamports := s.funder_lamports - 100,
                        vault_lamports := s.vault_lamports + 100,
                        epoch := some { ep with
                          total_funded := ep.total_funded + 100 } }) := by
      rw [fund_vault_of_routed s 100 none _ (by decide) hr]
      simp [hsome, hvk, Nat.not_le.mpr hover]
    exact ⟨_, hfv, rfl, hdis _ rfl⟩

/-- Witness for C9's amended round-trip theorem at a concrete state:
funder 150, custody 40, recipient 7. -/
theorem claim_C9_round_trip_witness :
    ∃ s1, fund_vault
        { reward_vault := { admin := 0, distributor := 1, reward_mint := none,
                            pay_sol := true, bump := 0 },
          vault_key := 7, funder_lamports := 150, vault_lamports := 40,
          epoch := none, funder_token_account := none,
          vault_token_account := none } 100 = (none, s1) ∧
      s1.vault_lamports = 40 + 100 ∧
      disburse_sol
          { reward_vault := { admin := 0, distributor := 1, reward_mint := none,
                              pay_sol := true, bump := 0 },
            distributor_key := 1, distributor_signed := true,
            vault_lamports := s1.vault_lamports, recipient_lamports := 7 } 100 =
        (none,
         { reward_vault := { admin := 0, distributor := 1, reward_mint := none,
                             pay_sol := true, bump := 0 },
           distributor_key := 1, distributor_signed := true,
           vault_lamports := 40, recipient_lamports := 7 + 100 }) :=
  claim_C9_round_trip
    { reward_vault := { admin := 0, distributor := 1, reward_mint := none,
                        pay_sol := true, bump := 0 },
      vault_key := 7, funder_lamports := 150, vault_lamports := 40,
      epoch := none, funder_token_account := none, vault_token_account := none }
    7 rfl (by decide) (by norm_num [U64_MOD]) (by norm_num [U64_MOD]) (Or.inl rfl)

/-- C10: in `pay_out_sol` the vault-side debit cannot underflow — whenever
the payout succeeds, the new custody balance plus the amount recovers the
old balance exactly, thanks to the `balance >= amount` pre-check — but
the recipient-side credit is an unchecked 64-bit addition: there is a
recipient balance and an amount within the custody balance whose credit
wraps modulo 2^64 instead of failing with a named error. -/
theorem claim_C10_unchecked_credit :
    (∀ (s : DisburseSolState) (amount : Nat),
        (pay_out_sol s amount).1 = none →
        (pay_out_sol s amount).2.vault_lamports + amount = s.vault_lamports) ∧
    (∃ (s : DisburseSolState) (amount : Nat),
        amount ≤ s.vault_lamports ∧
        U64_MOD ≤ s.recipient_lamports + amount ∧
        (pay_out_sol s amount).1 = none ∧
        (pay_out_sol s amount).2.recipient_lamports ≠
          s.recipient_lamports + amount) := by
  constructor
  · intro s amount h
    unfold pay_out_sol at h ⊢
    by_cases hlt : s.vault_lamports < amount
    · rw [if_pos hlt] at h
      simp at h
    · simp only [if_neg hlt]
      exact Nat.sub_add_cancel (Nat.not_lt.mp hlt)
  · refine ⟨{ reward_vault := { admin := 0, distributor := 1, reward_mint := none,
                                pay_sol := true, bump := 0 },
              distributor_key := 1, distributor_signed := true,
              vault_lamports := 1, recipient_lamports := 2 ^ 64 - 1 }, 1,
            by decide, by decide, by decide, by decide⟩

/-- Witness for C10's universally quantified debit part at a concrete
successful payout: disbursing 3 from a custody balance of 5. -/
theorem claim_C10_unchecked_credit_witness :
    (pay_out_sol
        { reward_vault := { admin := 0, distributor := 1, reward_mint := none,
                            pay_sol := true, bump := 0 },
          distributor_key := 1, distributor_signed := true,
          vault_lamports := 5, recipient_lamports := 7 } 3).2.vault_lamports + 3 = 5 :=
  claim_C10_unchecked_credit.1
    { reward_vault := { admin := 0, distributor := 1, reward_mint := none,
                        pay_sol := true, bump := 0 },
      distributor_key := 1, distributor_signed := true,
      vault_lamports := 5, recipient_lamports := 7 } 3 (by decide)
